import Mathlib

/-!
Verification development for the hermitcrab cognition core.

This file shallowly embeds the parts of the source that the checked
properties talk about:

* `hermitcrab/agent/memory.py` — the category-typed `MemoryStore`
  (typed writes, id generation, update/delete lifecycle rules);
* `hermitcrab/agent/distillation.py` — `AtomicCandidate` validation and
  parameter conversion;
* `hermitcrab/agent/tools/memory.py` — the `write_task` tool wrapper;
* `hermitcrab/agent/journal.py` — `JournalStore.write_entry`;
* `hermitcrab/agent/reflection.py` — bootstrap-edit section resolution;
* `hermitcrab/agent/loop.py` — session timeout check and the Phase B
  tool-iteration loop.

Machine-level details are embedded explicitly: `hashlib.sha256` is
implemented over `Nat` with 32-bit arithmetic written as `% 2 ^ 32`,
strings are encoded to UTF-8 bytes by an explicit encoder, and Python
exceptions are modelled with `Except` / explicit outcome values.
Nondeterministic inputs of the source (clock readings, `os.urandom`
filename nonces, LLM responses) are passed in as oracle parameters.
-/

namespace Hermitcrab

/-! ## SHA-256 (embeds `hashlib.sha256(...).hexdigest()`)

A direct implementation of FIPS 180-4 SHA-256 over byte lists, with all
words kept as `Nat` reduced modulo `2 ^ 32`. -/

/-- Reduce a natural number to a 32-bit word. -/
def w32 (n : Nat) : Nat := n % 4294967296

/-- Right-rotate a 32-bit word by `n` bits. -/
def rotr32 (n w : Nat) : Nat := w / 2 ^ n + (w % 2 ^ n) * 2 ^ (32 - n)

/-- Logical right shift of a 32-bit word by `n` bits. -/
def shr32 (n w : Nat) : Nat := w / 2 ^ n

/-- Bitwise complement of a 32-bit word. -/
def not32 (w : Nat) : Nat := 4294967295 - w

/-- SHA-256 choice function. -/
def shaCh (e f g : Nat) : Nat := (e &&& f) ^^^ (not32 e &&& g)

/-- SHA-256 majority function. -/
def shaMaj (a b c : Nat) : Nat := (a &&& b) ^^^ (a &&& c) ^^^ (b &&& c)

/-- SHA-256 big sigma 0. -/
def bsig0 (x : Nat) : Nat := rotr32 2 x ^^^ rotr32 13 x ^^^ rotr32 22 x

/-- SHA-256 big sigma 1. -/
def bsig1 (x : Nat) : Nat := rotr32 6 x ^^^ rotr32 11 x ^^^ rotr32 25 x

/-- SHA-256 small sigma 0. -/
def ssig0 (x : Nat) : Nat := rotr32 7 x ^^^ rotr32 18 x ^^^ shr32 3 x

/-- SHA-256 small sigma 1. -/
def ssig1 (x : Nat) : Nat := rotr32 17 x ^^^ rotr32 19 x ^^^ shr32 10 x

/-- SHA-256 round constants (FIPS 180-4 §4.2.2, written in decimal). -/
def shaK : List Nat :=
  [1116352408, 1899447441, 3049323471, 3921009573, 961987163,
   1508970993, 2453635748, 2870763221, 3624381080, 310598401,
   607225278, 1426881987, 1925078388, 2162078206, 2614888103,
   3248222580, 3835390401, 4022224774, 264347078, 604807628,
   770255983, 1249150122, 1555081692, 1996064986, 2554220882,
   2821834349, 2952996808, 3210313671, 3336571891, 3584528711,
   113926993, 338241895, 666307205, 773529912, 1294757372,
   1396182291, 1695183700, 1986661051, 2177026350, 2456956037,
   2730485921, 2820302411, 3259730800, 3345764771, 3516065817,
   3600352804, 4094571909, 275423344, 430227734, 506948616,
   659060556, 883997877, 958139571, 1322822218, 1537002063,
   1747873779, 1955562222, 2024104815, 2227730452, 2361852424,
   2428436474, 2756734187, 3204031479, 3329325298]

/-- SHA-256 initial hash state (FIPS 180-4 §5.3.3, written in decimal). -/
def shaH0 : List Nat :=
  [1779033703, 3144134277, 1013904242, 2773480762,
   1359893119, 2600822924, 528734635, 1541459225]

/-- Big-endian byte decomposition of a number into `k` bytes. -/
def beBytes (k n : Nat) : List Nat :=
  (List.range k).map fun i => n / 2 ^ (8 * (k - 1 - i)) % 256

/-- Read a big-endian 32-bit word from 4 bytes of a list at byte offset `4 * i`. -/
def be32At (bs : List Nat) (i : Nat) : Nat :=
  (bs.getD (4 * i) 0) * 16777216 + (bs.getD (4 * i + 1) 0) * 65536 +
    (bs.getD (4 * i + 2) 0) * 256 + bs.getD (4 * i + 3) 0

/-- SHA-256 message padding: append `0x80`, zero bytes, and the 64-bit
big-endian bit length, reaching a multiple of 64 bytes. -/
def shaPad (msg : List Nat) : List Nat :=
  let l := msg.length
  let zeros := (120 - (l + 1) % 64) % 64
  msg ++ [0x80] ++ List.replicate zeros 0 ++ beBytes 8 (8 * l)

/-- Split a byte list into 64-byte blocks. -/
def chunk64 : Nat → List Nat → List (List Nat)
  | 0, _ => []
  | _, [] => []
  | fuel + 1, bs => bs.take 64 :: chunk64 fuel (bs.drop 64)

/-- Message schedule for one block: 64 words. -/
def shaSchedule (block : List Nat) : Array Nat :=
  let ws0 : Array Nat := ((List.range 16).map fun i => be32At block i).toArray
  (List.range 48).foldl
    (fun ws _ =>
      let n := ws.size
      ws.push (w32 (ssig1 (ws.getD (n - 2) 0) + ws.getD (n - 7) 0 +
        ssig0 (ws.getD (n - 15) 0) + ws.getD (n - 16) 0)))
    ws0

/-- One SHA-256 compression round on the 8-word working state. -/
def shaRound (ki wi : Nat) (st : List Nat) : List Nat :=
  let a := st.getD 0 0
  let b := st.getD 1 0
  let c := st.getD 2 0
  let d := st.getD 3 0
  let e := st.getD 4 0
  let f := st.getD 5 0
  let g := st.getD 6 0
  let hh := st.getD 7 0
  let t1 := w32 (hh + bsig1 e + shaCh e f g + ki + wi)
  let t2 := w32 (bsig0 a + shaMaj a b c)
  [w32 (t1 + t2), a, b, c, w32 (d + t1), e, f, g]

/-- Compress one 64-byte block into the hash state. -/
def shaCompress (h : List Nat) (block : List Nat) : List Nat :=
  let ws := shaSchedule block
  let fin := (List.range 64).foldl
    (fun st i => shaRound (shaK.getD i 0) (ws.getD i 0) st) h
  (List.range 8).map fun i => w32 (h.getD i 0 + fin.getD i 0)

/-- SHA-256 digest of a byte list, as 32 bytes. -/
def sha256 (msg : List Nat) : List Nat :=
  let padded := shaPad msg
  let blocks := chunk64 (padded.length / 64) padded
  let hFinal := blocks.foldl shaCompress shaH0
  hFinal.flatMap (beBytes 4)

/-- Lowercase hex digit for a value below 16. -/
def hexDigit (n : Nat) : Char :=
  if n < 10 then Char.ofNat (48 + n) else Char.ofNat (87 + n)

/-- Lowercase hex string of a byte list (embeds `.hexdigest()`). -/
def hexOfBytes (bs : List Nat) : String :=
  String.mk (bs.flatMap fun b => [hexDigit (b / 16), hexDigit (b % 16)])

/-- UTF-8 encoding of one character (code point as `Nat`). -/
def utf8Char (c : Char) : List Nat :=
  let n := c.toNat
  if n < 128 then [n]
  else if n < 2048 then [192 + n / 64, 128 + n % 64]
  else if n < 65536 then [224 + n / 4096, 128 + n / 64 % 64, 128 + n % 64]
  else [240 + n / 262144, 128 + n / 4096 % 64, 128 + n / 64 % 64, 128 + n % 64]

/-- UTF-8 encoding of a string (embeds Python `str.encode()`). -/
def utf8Encode (s : String) : List Nat :=
  s.data.flatMap utf8Char

/-- Hex digest of the SHA-256 of a string's UTF-8 bytes
(embeds `hashlib.sha256(s.encode()).hexdigest()`). -/
def sha256HexOfString (s : String) : String :=
  hexOfBytes (sha256 (utf8Encode s))

/-! ## Memory store data model (`hermitcrab/agent/memory.py`)

Timestamps are oracle parameters (`now : Nat`, seconds resolution, the
precision at which the store serializes them). The filename produced by
`_generate_filename` depends on the clock and on `os.urandom`, so it too
is an oracle parameter of each write. Python exceptions are modelled as
`Except` errors / explicit error outcomes; an exception raised before
the single file write of an operation leaves the store unchanged. -/

/-- Python whitespace for `str.strip()` (ASCII whitespace; the exotic
Unicode space characters Python also strips play no role here). -/
def pyIsSpace (c : Char) : Bool :=
  c = ' ' ∨ c = '\t' ∨ c = '\n' ∨ c = '\x0d' ∨ c = '\x0b' ∨ c = '\x0c'

/-- Embeds Python `str.strip()`: drop leading and trailing whitespace.
(Structurally recursive so that concrete instances evaluate in the
kernel.) -/
def pyStrip (s : String) : String :=
  String.mk (((s.data.dropWhile pyIsSpace).reverse.dropWhile pyIsSpace).reverse)

/-- Embeds the `MemoryCategory` enum. -/
inductive MemoryCategory
  | facts | decisions | goals | tasks | reflections
  deriving DecidableEq, Repr

/-- Embeds the `TaskStatus` enum (member names as in the source). -/
inductive TaskStatus
  | OPEN | IN_PROGRESS | DONE | DEFERRED
  deriving DecidableEq, Repr

/-- The `.value` string of a `TaskStatus` member. -/
def TaskStatus.value : TaskStatus → String
  | .OPEN => "open"
  | .IN_PROGRESS => "in_progress"
  | .DONE => "done"
  | .DEFERRED => "deferred"

/-- Embeds Python exceptions raised by the store. -/
inductive PyErr
  | valueError (msg : String)
  | attributeError (msg : String)
  deriving DecidableEq, Repr

/-- The message text of an exception (what `str(e)` yields). -/
def PyErr.msg : PyErr → String
  | .valueError m => m
  | .attributeError m => m

/-- Embeds `MemoryItem`: required attributes plus the category-specific
`metadata` dict entries flattened into optional fields (the keys the
source ever stores). -/
structure MemoryItem where
  id : String
  category : MemoryCategory
  title : String
  content : String
  createdAt : Nat
  updatedAt : Nat
  tags : List String
  status : Option String := none
  assignee : Option String := none
  deadline : Option String := none
  priority : Option String := none
  relatedGoal : Option String := none
  supersedes : Option String := none
  rationale : Option String := none
  scope : Option String := none
  source : Option String := none
  context : Option String := none
  horizon : Option String := none
  confidence : Option ℚ := none
  deriving DecidableEq, Repr

/-- The on-disk store: for each category (and the two archive
subdirectories), the list of `(filename, parsed item)` pairs, in
directory order. -/
structure Store where
  facts : List (String × MemoryItem) := []
  decisions : List (String × MemoryItem) := []
  goals : List (String × MemoryItem) := []
  tasks : List (String × MemoryItem) := []
  reflections : List (String × MemoryItem) := []
  archivedGoals : List (String × MemoryItem) := []
  archivedTasks : List (String × MemoryItem) := []
  deriving DecidableEq, Repr

/-- The empty workspace. -/
def store0 : Store := {}

/-- The directory of a category. -/
def Store.dir (s : Store) : MemoryCategory → List (String × MemoryItem)
  | .facts => s.facts
  | .decisions => s.decisions
  | .goals => s.goals
  | .tasks => s.tasks
  | .reflections => s.reflections

/-- Replace the directory of a category. -/
def Store.setDir (s : Store) : MemoryCategory → List (String × MemoryItem) → Store
  | .facts, d => { s with facts := d }
  | .decisions, d => { s with decisions := d }
  | .goals, d => { s with goals := d }
  | .tasks, d => { s with tasks := d }
  | .reflections, d => { s with reflections := d }

/-- Embeds `MemoryStore._generate_id`: the first 8 hex characters of the
SHA-256 of `f"{title}:{content}"`. -/
def generateId (title content : String) : String :=
  (sha256HexOfString (title ++ ":" ++ content)).take 8

/-- The stem used by the collision loop of `_write_file`
(`original_filename.rsplit(".", 1)[0]`). -/
def stemOf (fname : String) : String :=
  let parts := fname.splitOn "."
  if parts.length ≤ 1 then fname else String.intercalate "." parts.dropLast

/-- The `i`-th candidate filename tried by the collision loop of
`_write_file` (the base name, then `stem_1.md`, `stem_2.md`, …). -/
def candidateName (fname : String) (i : Nat) : String :=
  if i = 0 then fname else stemOf fname ++ "_" ++ toString i ++ ".md"

/-- Look up a filename in a directory. -/
def lookupFile (dir : List (String × MemoryItem)) (name : String) : Option MemoryItem :=
  (dir.find? fun e => e.1 = name).map (·.2)

/-- The collision loop of `MemoryStore._write_file`: while the candidate
path is occupied, break and overwrite in place when the occupant has the
item's own id, otherwise append a numeric suffix to the stem and retry.
The fuel bound `dir.length + 1` only forces termination; candidate names
are pairwise distinct so a fresh one is found before it runs out. -/
def writeFileAux (dir : List (String × MemoryItem)) (item : MemoryItem) (fname : String) :
    Nat → Nat → List (String × MemoryItem)
  | 0, i => dir ++ [(candidateName fname i, item)]
  | fuel + 1, i =>
    let name := candidateName fname i
    match lookupFile dir name with
    | none => dir ++ [(name, item)]
    | some existing =>
      if existing.id = item.id then
        dir.map fun e => if e.1 = name then (name, item) else e
      else
        writeFileAux dir item fname fuel (i + 1)

/-- Embeds `MemoryStore._write_file` (fresh-write path, `overwrite=False`):
the oracle `fname` stands for the `_generate_filename` output. -/
def writeFile (dir : List (String × MemoryItem)) (item : MemoryItem) (fname : String) :
    List (String × MemoryItem) :=
  writeFileAux dir item fname (dir.length + 1) 0

/-- Embeds `MemoryStore.write_fact`. -/
def writeFact (s : Store) (now : Nat) (fname : String) (title content : String)
    (tags : Option (List String)) (confidence : Option ℚ) (source : Option String) :
    Except PyErr (Store × MemoryItem) :=
  if pyStrip content = "" then .error (.valueError "Fact content cannot be empty")
  else
    let item : MemoryItem :=
      { id := generateId title content
        category := .facts
        title := title
        content := pyStrip content
        createdAt := now
        updatedAt := now
        tags := tags.getD []
        confidence := confidence
        source := source }
    .ok ({ s with facts := writeFile s.facts item fname }, item)

/-- Embeds `MemoryStore.write_decision`. -/
def writeDecision (s : Store) (now : Nat) (fname : String) (title content : String)
    (tags : Option (List String)) (status : String) (supersedes rationale scope : Option String) :
    Except PyErr (Store × MemoryItem) :=
  if pyStrip content = "" then .error (.valueError "Decision content cannot be empty")
  else if status ≠ "active" ∧ status ≠ "superseded" then
    .error (.valueError "Decision status must be 'active' or 'superseded'")
  else
    let item : MemoryItem :=
      { id := generateId title content
        category := .decisions
        title := title
        content := pyStrip content
        createdAt := now
        updatedAt := now
        tags := tags.getD []
        status := some status
        supersedes := supersedes
        rationale := rationale
        scope := scope }
    .ok ({ s with decisions := writeFile s.decisions item fname }, item)

/-- Embeds `MemoryStore.write_goal`. -/
def writeGoal (s : Store) (now : Nat) (fname : String) (title content : String)
    (tags : Option (List String)) (status : String) (priority horizon : Option String) :
    Except PyErr (Store × MemoryItem) :=
  if pyStrip content = "" then .error (.valueError "Goal content cannot be empty")
  else if status ≠ "active" ∧ status ≠ "achieved" ∧ status ≠ "abandoned" then
    .error (.valueError "Goal status must be 'active', 'achieved', or 'abandoned'")
  else
    let item : MemoryItem :=
      { id := generateId title content
        category := .goals
        title := title
        content := pyStrip content
        createdAt := now
        updatedAt := now
        tags := tags.getD []
        status := some status
        priority := priority
        horizon := horizon }
    .ok ({ s with goals := writeFile s.goals item fname }, item)

/-- A dynamically typed `status` argument as Python passes it to
`write_task`: either a `TaskStatus` enum member or a plain `str`. -/
inductive StatusVal
  | enum (s : TaskStatus)
  | str (s : String)
  deriving DecidableEq, Repr

/-- Embeds the attribute access `status.value` inside `write_task`:
defined on enum members, raises `AttributeError` on a plain string. -/
def StatusVal.valueAttr : StatusVal → Except PyErr String
  | .enum s => .ok s.value
  | .str _ => .error (.attributeError "'str' object has no attribute 'value'")

/-- Embeds `MemoryStore.write_task`. The `status.value` access happens
while building the item's metadata, after the content and assignee
checks and before the file write. -/
def writeTask (s : Store) (now : Nat) (fname : String) (title content assignee : String)
    (tags : Option (List String)) (status : StatusVal)
    (deadline priority relatedGoal : Option String) :
    Except PyErr (Store × MemoryItem) :=
  if pyStrip content = "" then .error (.valueError "Task content cannot be empty")
  else if pyStrip assignee = "" then .error (.valueError "Task assignee is required")
  else
    match status.valueAttr with
    | .error e => .error e
    | .ok statusStr =>
      let item : MemoryItem :=
        { id := generateId title content
          category := .tasks
          title := title
          content := pyStrip content
          createdAt := now
          updatedAt := now
          tags := tags.getD []
          status := some statusStr
          assignee := some (pyStrip assignee)
          deadline := deadline
          priority := priority
          relatedGoal := relatedGoal }
      .ok ({ s with tasks := writeFile s.tasks item fname }, item)

/-- Embeds `MemoryStore.write_reflection`. -/
def writeReflection (s : Store) (now : Nat) (fname : String) (title content : String)
    (tags : Option (List String)) (context : Option String) :
    Except PyErr (Store × MemoryItem) :=
  if pyStrip content = "" then .error (.valueError "Reflection content cannot be empty")
  else
    let item : MemoryItem :=
      { id := generateId title content
        category := .reflections
        title := title
        content := pyStrip content
        createdAt := now
        updatedAt := now
        tags := tags.getD []
        context := context }
    .ok ({ s with reflections := writeFile s.reflections item fname }, item)

/-! ## Update and delete (`MemoryStore.update_memory` / `delete_memory`) -/

/-- Embeds the id-lookup path of `MemoryStore.read_memory`: filter the
category directory by id, sort by `updated_at` descending (Python stable
sort: ties keep directory order) and take the first entry. The fold
keeps the earliest entry among those with maximal `updated_at`, which is
exactly that head. -/
def readById (dir : List (String × MemoryItem)) (id : String) :
    Option (String × MemoryItem) :=
  (dir.filter fun e => e.2.id = id).foldl
    (fun acc e =>
      match acc with
      | none => some e
      | some a => if a.2.updatedAt < e.2.updatedAt then some e else acc)
    none

/-- The keyword arguments of `MemoryStore.update_memory`. The
`**metadata_updates` dict is modelled as an association list over the
metadata keys the store serializes; other keys would be dropped at the
file-format boundary. -/
structure UpdateArgs where
  content : Option String := none
  title : Option String := none
  tags : Option (List String) := none
  metadataUpdates : List (String × String) := []
  deriving DecidableEq, Repr

/-- Apply one `metadata_updates` entry to an item (dict update keyed by
the serialized metadata field names). -/
def applyMetaUpdate (item : MemoryItem) : String × String → MemoryItem
  | ("status", v) => { item with status := some v }
  | ("assignee", v) => { item with assignee := some v }
  | ("deadline", v) => { item with deadline := some v }
  | ("priority", v) => { item with priority := some v }
  | ("related_goal", v) => { item with relatedGoal := some v }
  | ("supersedes", v) => { item with supersedes := some v }
  | ("rationale", v) => { item with rationale := some v }
  | ("scope", v) => { item with scope := some v }
  | ("source", v) => { item with source := some v }
  | ("context", v) => { item with context := some v }
  | ("horizon", v) => { item with horizon := some v }
  | (_, _) => item

/-- Embeds `MemoryStore.update_memory`. Returns the store (unchanged when
the operation raises or finds nothing) together with the Python result:
`None` when the id is not found, the updated item on success, or the
raised exception. The reflections rule check happens after the lookup
and before any mutation. -/
def updateMemory (s : Store) (now : Nat) (category : MemoryCategory) (id : String)
    (u : UpdateArgs) : Store × Except PyErr (Option MemoryItem) :=
  match readById (s.dir category) id with
  | none => (s, .ok none)
  | some (path, item0) =>
    if category = .reflections then
      (s, .error (.valueError "Reflections are append-only and cannot be updated"))
    else
      let item1 :=
        { item0 with
          title := (u.title).getD item0.title
          content := ((u.content).map pyStrip).getD item0.content
          tags := (u.tags).getD item0.tags }
      let item2 := u.metadataUpdates.foldl applyMetaUpdate item1
      let item3 := { item2 with updatedAt := now }
      let dir := (s.dir category).map fun e => if e.1 = path then (path, item3) else e
      (s.setDir category dir, .ok (some item3))

/-- Remove the entry at a path from a directory. -/
def removeFile (dir : List (String × MemoryItem)) (path : String) :
    List (String × MemoryItem) :=
  dir.filter fun e => e.1 ≠ path

/-- Embeds `MemoryStore.delete_memory`. The decisions/reflections rule
checks happen after the lookup and before any file operation; done tasks
and achieved goals are archived (renamed into `archived/`) instead of
deleted. -/
def deleteMemory (s : Store) (category : MemoryCategory) (id : String) :
    Store × Except PyErr Bool :=
  match readById (s.dir category) id with
  | none => (s, .ok false)
  | some (path, item) =>
    if category = .decisions then
      (s, .error (.valueError "Decisions are immutable and cannot be deleted"))
    else if category = .reflections then
      (s, .error (.valueError "Reflections are append-only and cannot be deleted"))
    else if category = .tasks ∧ item.status.getD "open" = "done" then
      ({ s with tasks := removeFile s.tasks path, archivedTasks := s.archivedTasks ++ [(path, item)] },
        .ok true)
    else if category = .goals ∧ item.status.getD "active" = "achieved" then
      ({ s with goals := removeFile s.goals path, archivedGoals := s.archivedGoals ++ [(path, item)] },
        .ok true)
    else
      (s.setDir category (removeFile (s.dir category) path), .ok true)

/-! ## Reflection-category operation sequences (for the append-only invariant) -/

/-- One Memory Store operation touching the reflections category. -/
inductive ReflOp
  | write (now : Nat) (fname : String) (title content : String)
      (tags : Option (List String)) (context : Option String)
  | update (now : Nat) (id : String) (u : UpdateArgs)
  | delete (id : String)
  deriving DecidableEq, Repr

/-- The observable result of one reflections-category operation. -/
inductive ReflOutcome
  | wrote (item : MemoryItem)
  | raised (e : PyErr)
  | updatedNone
  | updatedSome (item : MemoryItem)
  | deletedBool (b : Bool)
  deriving DecidableEq, Repr

/-- Run one reflections-category operation on the store. -/
def reflStep (s : Store) : ReflOp → Store × ReflOutcome
  | .write now fname title content tags context =>
    match writeReflection s now fname title content tags context with
    | .ok (s', item) => (s', .wrote item)
    | .error e => (s, .raised e)
  | .update now id u =>
    match updateMemory s now .reflections id u with
    | (s', .ok none) => (s', .updatedNone)
    | (s', .ok (some item)) => (s', .updatedSome item)
    | (s', .error e) => (s', .raised e)
  | .delete id =>
    match deleteMemory s .reflections id with
    | (s', .ok b) => (s', .deletedBool b)
    | (s', .error e) => (s', .raised e)

/-- Run a sequence of reflections-category operations. -/
def reflRun (s : Store) : List ReflOp → Store
  | [] => s
  | op :: ops => reflRun (reflStep s op).1 ops

/-- Freshness of one operation's oracle filename: a write's generated
filename is unused in the current store (updates and deletes generate no
filename). -/
def freshCond (s : Store) : ReflOp → Bool
  | .write _ fname _ _ _ _ => (lookupFile s.reflections fname).isNone
  | _ => true

/-- Freshness of the oracle filenames along a run: each write's generated
filename is unused at the moment the write happens (the `os.urandom`
12-hex nonce makes this the intended regime of `_generate_filename`). -/
def freshRun (s : Store) : List ReflOp → Bool
  | [] => true
  | op :: ops => freshCond s op && freshRun (reflStep s op).1 ops

/-! ## Distillation candidates (`hermitcrab/agent/distillation.py`) -/

/-- Embeds the `CandidateType` enum. -/
inductive CandidateType
  | FACT | DECISION | GOAL | TASK | REFLECTION
  deriving DecidableEq, Repr

/-- Embeds the `GoalStatus` enum. -/
inductive GoalStatus
  | ACTIVE | ACHIEVED | ABANDONED
  deriving DecidableEq, Repr

/-- Embeds the `DecisionStatus` enum. -/
inductive DecisionStatus
  | ACTIVE | SUPERSEDED
  deriving DecidableEq, Repr

/-- Embeds `AtomicCandidate` (the fields the checked properties read;
`created_at` and `extra` are omitted, nothing here depends on them). -/
structure AtomicCandidate where
  type : CandidateType
  title : String
  content : String
  confidence : ℚ := 1
  sourceSession : String := ""
  tags : List String := []
  taskStatus : Option TaskStatus := none
  taskAssignee : Option String := none
  taskDeadline : Option String := none
  taskPriority : Option String := none
  goalStatus : Option GoalStatus := none
  goalPriority : Option String := none
  goalHorizon : Option String := none
  decisionStatus : Option DecisionStatus := none
  decisionRationale : Option String := none
  decisionSupersedes : Option String := none
  factSource : Option String := none
  reflectionContext : Option String := none
  deriving DecidableEq, Repr

/-- Python truthiness of an optional string (`None` and `""` are falsy). -/
def pyTruthy : Option String → Bool
  | none => false
  | some s => s ≠ ""

/-- `not x or not x.strip()` on an optional string: missing, empty, or
whitespace-only. -/
def optBlank : Option String → Bool
  | none => true
  | some s => pyStrip s = ""

/-- Embeds `AtomicCandidate.validate`: the list of validation error
strings, in source order. -/
def AtomicCandidate.validate (c : AtomicCandidate) : List String :=
  (if pyStrip c.title = "" then ["Title is required"] else []) ++
  (if pyStrip c.content = "" then ["Content is required"] else []) ++
  (if ¬(0 ≤ c.confidence ∧ c.confidence ≤ 1) then
    ["Confidence must be between 0.0 and 1.0"] else []) ++
  (if c.type = .TASK ∧ optBlank c.taskAssignee then
    ["Task assignee is required"] else []) ++
  (if c.type = .DECISION ∧ pyTruthy c.decisionSupersedes ∧ ¬ pyTruthy c.decisionRationale then
    ["Rationale required when superseding another decision"] else [])

/-- Python `x or default` on an optional string. -/
def pyOrStr (o : Option String) (d : String) : String :=
  match o with
  | none => d
  | some s => if s = "" then d else s

/-- The dict returned by the `CandidateType.TASK` branch of
`AtomicCandidate.to_memory_params`. -/
structure TaskWriteParams where
  title : String
  content : String
  tags : List String
  assignee : String
  status : TaskStatus
  deadline : Option String
  priority : Option String
  deriving DecidableEq, Repr

/-- Embeds the `CandidateType.TASK` branch of
`AtomicCandidate.to_memory_params`: `assignee` is
`self.task_assignee or "unassigned"` and `status` is
`self.task_status or TaskStatus.OPEN` (enum members are truthy). -/
def AtomicCandidate.toTaskParams (c : AtomicCandidate) : TaskWriteParams :=
  { title := c.title
    content := c.content
    tags := c.tags
    assignee := pyOrStr c.taskAssignee "unassigned"
    status := c.taskStatus.getD .OPEN
    deadline := c.taskDeadline
    priority := c.taskPriority }

/-- Embeds the `CandidateType.TASK` branch of
`AgentLoop._commit_candidate_to_memory`: build the write parameters,
substitute `"distilled"` if the assignee parameter is falsy, call
`MemoryStore.write_task` (status forwarded as the enum member), and
swallow any exception, leaving the store unchanged. The boolean reports
whether a write happened. -/
def commitTaskCandidate (s : Store) (now : Nat) (fname : String) (c : AtomicCandidate) :
    Store × Bool :=
  let p := c.toTaskParams
  let assignee := if p.assignee = "" then "distilled" else p.assignee
  match writeTask s now fname p.title p.content assignee (some p.tags) (.enum p.status)
      p.deadline p.priority none with
  | .ok (s', _) => (s', true)
  | .error _ => (s, false)

/-- Embeds the per-candidate gate of `AgentLoop._distill_session` for a
task candidate: a candidate whose `validate` returns errors is skipped,
otherwise it is committed through `_commit_candidate_to_memory`. -/
def processTaskCandidate (s : Store) (now : Nat) (fname : String) (c : AtomicCandidate) :
    Store × Bool :=
  if c.validate = [] then commitTaskCandidate s now fname c else (s, false)

/-! ## The `write_task` tool (`hermitcrab/agent/tools/memory.py`) -/

/-- Embeds `WriteTaskTool.execute`: forwards its arguments — `status` is
a plain string per the tool's JSON schema — to `MemoryStore.write_task`
and converts any exception into an `"Error saving task: …"` string. -/
def writeTaskToolExecute (s : Store) (now : Nat) (fname : String)
    (title content assignee : String) (tags : Option (List String))
    (status : String) (deadline priority : Option String) : Store × String :=
  match writeTask s now fname title content assignee tags (.str status) deadline priority none with
  | .ok (s', item) =>
    (s', "Task saved: " ++ item.title ++ " (assigned to " ++ assignee ++ ")")
  | .error e => (s, "Error saving task: " ++ e.msg)

/-! ## Journal store (`hermitcrab/agent/journal.py`)

One calendar day's file is modelled by its optional current content; the
date string (`strftime("%Y-%m-%d")`) is an oracle parameter. -/

/-- Embeds `JournalStore._build_frontmatter` (`session_keys` and `tags`
are falsy when empty, so `[]` models both `None` and `[]`). -/
def buildFrontmatter (date : String) (sessionKeys tags : List String) : String :=
  let lines := ["---", "date: " ++ date]
    ++ (if sessionKeys ≠ [] then "session_keys:" :: sessionKeys.map (fun k => "  - " ++ k) else [])
    ++ (if tags ≠ [] then "tags:" :: tags.map (fun t => "  - " ++ t) else [])
    ++ ["---"]
  String.intercalate "\n" lines

/-- Embeds `JournalStore.write_entry` for the day addressed by `date`:
given the day file's current content (`none` when the file does not
exist), produce the file's new content or the raised exception. A fresh
file gets the frontmatter header, two newlines, the stripped body and a
trailing newline; an existing file gets `"\n" + body + "\n"` appended. -/
def writeEntry (existing : Option String) (content : String)
    (sessionKeys tags : List String) (date : String) : Except PyErr String :=
  if pyStrip content = "" then .error (.valueError "Journal content cannot be empty")
  else
    match existing with
    | none => .ok (buildFrontmatter date sessionKeys tags ++ "\n\n" ++ pyStrip content ++ "\n")
    | some old => .ok (old ++ "\n" ++ pyStrip content ++ "\n")

/-! ## Bootstrap edit proposals (`hermitcrab/agent/reflection.py`) -/

/-- Embeds the `BOOTSTRAP_SECTIONS` dict. -/
def BOOTSTRAP_SECTIONS : List (String × String) :=
  [("AGENTS.md", "## Self-Improvements from Reflection"),
   ("SOUL.md", "## Learned Values"),
   ("IDENTITY.md", "## Adapted Identity"),
   ("TOOLS.md", "## Learned Tool Behaviors")]

/-- Python `dict.get(key, default)` over an association list. -/
def dictGetD (d : List (String × String)) (key : String) (default : String) : String :=
  ((d.find? fun kv => kv.1 = key).map (·.2)).getD default

/-- One `edits` array element as parsed from the promoter LLM's JSON:
`section` and `confidence` keys may be absent. -/
structure EditData where
  targetFile : String
  sectionField : Option String
  content : String
  reason : String
  reflectionType : String
  confidenceField : Option ℚ := none
  deriving DecidableEq, Repr

/-- Embeds `BootstrapEditProposal` (the `section` attribute is named
`sectionHeader`, `section` being a Lean keyword). -/
structure BootstrapEditProposal where
  targetFile : String
  sectionHeader : String
  content : String
  reason : String
  reflectionType : String
  confidence : ℚ := 1
  deriving DecidableEq, Repr

/-- Embeds the proposal construction inside
`ReflectionPromoter.propose_edits_from_reflections`: the section is
`edit_data.get("section", BOOTSTRAP_SECTIONS.get(target_file, ""))` —
the value supplied in the edit when the key is present, otherwise the
canonical section of the target file (or `""`). -/
def mkProposal (ed : EditData) : BootstrapEditProposal :=
  { targetFile := ed.targetFile
    sectionHeader :=
      match ed.sectionField with
      | some sec => sec
      | none => dictGetD BOOTSTRAP_SECTIONS ed.targetFile ""
    content := ed.content
    reason := ed.reason
    reflectionType := ed.reflectionType
    confidence := ed.confidenceField.getD 1 }

/-! ## Agent loop (`hermitcrab/agent/loop.py`) -/

/-- The session inactivity threshold, `INACTIVITY_TIMEOUT_S = 30 * 60`
seconds. -/
def INACTIVITY_TIMEOUT_S : ℚ := 30 * 60

/-- Embeds `AgentLoop._check_session_timeout`. The timer map is an
association list from session key to last-activity time; times and the
elapsed difference (`(now - last_activity).total_seconds()`) are exact
rationals in seconds. -/
def checkSessionTimeout (timers : List (String × ℚ)) (now : ℚ) (key : String) : Bool :=
  match (timers.find? fun kv => kv.1 = key).map (·.2) with
  | none => false
  | some lastActivity => decide (now - lastActivity > INACTIVITY_TIMEOUT_S)

/-- A tool call in an LLM response (`arguments` kept as its JSON text). -/
structure ToolCall where
  id : String
  name : String
  arguments : String
  deriving DecidableEq, Repr

/-- An LLM provider response as `_run_agent_loop` consumes it. -/
structure ChatResponse where
  content : Option String
  toolCalls : List ToolCall
  deriving DecidableEq, Repr

/-- A transcript message as the loop appends them (`other` stands for the
opaque entries of the initial message list). -/
inductive Msg
  | assistant (content : Option String) (toolCalls : List ToolCall)
  | tool (callId name result : String)
  | other (payload : String)
  deriving DecidableEq, Repr

/-- The budget-exhausted message of `_run_agent_loop` (the source
f-string with `max_iterations` interpolated). -/
def budgetMsg (maxIterations : Nat) : String :=
  "I reached the maximum number of tool call iterations (" ++ toString maxIterations ++
    ") without completing the task. You can try breaking the task into smaller steps."

/-- The `while iteration < max_iterations` body of `_run_agent_loop`.
`provider` maps the index of the LLM call to its response, `toolExec`
maps a tool name and JSON arguments to the tool's result string, and
`stripThink` is `_strip_think`. Returns
`(final_content, tools_used, messages, calls made, iterations run)`;
the call count is instrumentation counting uses of `provider`. -/
def loopIter (provider : Nat → ChatResponse) (toolExec : String → String → String)
    (stripThink : Option String → Option String) :
    Nat → Nat → Nat → List Msg → List String →
    Option String × List String × List Msg × Nat × Nat
  | 0, iteration, calls, msgs, used => (none, used, msgs, calls, iteration)
  | fuel + 1, iteration, calls, msgs, used =>
    let response := provider calls
    if response.toolCalls = [] then
      (stripThink response.content, used, msgs, calls + 1, iteration + 1)
    else
      let msgs1 := msgs ++ [Msg.assistant response.content response.toolCalls]
      let folded := response.toolCalls.foldl
        (fun (acc : List Msg × List String) tc =>
          (acc.1 ++ [Msg.tool tc.id tc.name (toolExec tc.name tc.arguments)],
           acc.2 ++ [tc.name]))
        (msgs1, used)
      loopIter provider toolExec stripThink fuel (iteration + 1) (calls + 1) folded.1 folded.2

/-- Embeds `AgentLoop._run_agent_loop`: `model = none` (the distillation
case) skips with `(None, [], [])`; otherwise run the iteration loop and
substitute the budget-exhausted message when the loop left
`final_content` as `None` with `iteration >= max_iterations`. The last
component counts LLM calls. -/
def runAgentLoop (provider : Nat → ChatResponse) (toolExec : String → String → String)
    (stripThink : Option String → Option String) (model : Option String)
    (maxIterations : Nat) (initialMessages : List Msg) :
    Option String × List String × List Msg × Nat :=
  match model with
  | none => (none, [], [], 0)
  | some _ =>
    let r := loopIter provider toolExec stripThink maxIterations 0 0 initialMessages []
    let finalContent := r.1
    let used := r.2.1
    let msgs := r.2.2.1
    let calls := r.2.2.2.1
    let iteration := r.2.2.2.2
    let finalContent :=
      if finalContent = none ∧ iteration ≥ maxIterations then some (budgetMsg maxIterations)
      else finalContent
    (finalContent, used, msgs, calls)

/-- Whether an `Except` computation succeeded. -/
def exceptOk {ε α : Type} : Except ε α → Bool
  | .ok _ => true
  | .error _ => false

end Hermitcrab

namespace Hermitcrab

/-! ## Theorems -/

/-- C6: For every session key with last-activity timestamp `t`, the
session-timeout check at current time `now` reports a timeout exactly
when `now - t` is strictly greater than 30 minutes; an elapsed time
exactly equal to the threshold is not a timeout. -/
theorem c6_session_timeout_strict :
    ∀ (timers : List (String × ℚ)) (now : ℚ) (key : String) (t : ℚ),
      ((timers.find? fun kv => kv.1 = key).map (·.2)) = some t →
      (checkSessionTimeout timers now key = true ↔ now - t > INACTIVITY_TIMEOUT_S) ∧
      (now - t = INACTIVITY_TIMEOUT_S → checkSessionTimeout timers now key = false) := by
  intro timers now key t h
  constructor
  · simp [checkSessionTimeout, h]
  · intro he
    simp [checkSessionTimeout, h, he]

/-- Witness for C6: a timer set at time 0 is not timed out at exactly
1800 seconds and is timed out at 1801 seconds. -/
theorem c6_session_timeout_strict_witness :
    checkSessionTimeout [("cli:c1", 0)] 1800 "cli:c1" = false ∧
    checkSessionTimeout [("cli:c1", 0)] 1801 "cli:c1" = true := by
  have h : (([("cli:c1", (0 : ℚ))].find? fun kv => kv.1 = "cli:c1").map (·.2)) = some 0 := by
    decide
  refine ⟨(c6_session_timeout_strict [("cli:c1", 0)] 1800 "cli:c1" 0 h).2
    (by norm_num [INACTIVITY_TIMEOUT_S]), ?_⟩
  exact (c6_session_timeout_strict [("cli:c1", 0)] 1801 "cli:c1" 0 h).1.mpr
    (by norm_num [INACTIVITY_TIMEOUT_S])

/-- C10: With `max_iterations = 0` (and an available model, as Phase B
always has), `_run_agent_loop` makes zero LLM calls and returns the
canned budget-exhausted message as the final content, with no tools used
and the message list untouched. -/
theorem c10_zero_budget_canned_message :
    ∀ (provider : Nat → ChatResponse) (toolExec : String → String → String)
      (stripThink : Option String → Option String) (m : String) (initialMessages : List Msg),
      runAgentLoop provider toolExec stripThink (some m) 0 initialMessages =
        (some (budgetMsg 0), [], initialMessages, 0) := by
  intro provider toolExec stripThink m initialMessages
  rfl

/-- C4: Every invocation of the `write_task` tool's `execute` (whose
schema passes `status` as a plain string) leaves the store unchanged and
returns an `"Error saving task: …"` string, never a success message:
`MemoryStore.write_task` raises before writing — on empty content, empty
assignee, or otherwise at the `status.value` attribute access. -/
theorem c4_write_task_tool_always_errors :
    ∀ (s : Store) (now : Nat) (fname title content assignee : String)
      (tags : Option (List String)) (status : String) (deadline priority : Option String),
      (writeTaskToolExecute s now fname title content assignee tags status deadline priority).1 = s ∧
      ∃ m, (writeTaskToolExecute s now fname title content assignee tags status deadline
        priority).2 = "Error saving task: " ++ m := by
  intro s now fname title content assignee tags status deadline priority
  unfold writeTaskToolExecute writeTask
  by_cases h1 : pyStrip content = ""
  · simp [h1]
  · by_cases h2 : pyStrip assignee = ""
    · simp [h1, h2]
    · simp [h1, h2, StatusVal.valueAttr]

/-- C7: The first `write_entry` of a day writes the structured header
(date, optional session keys, optional tags) followed by the body; a
write to an existing day file appends exactly a newline and the body (no
second header); empty or whitespace-only content raises and writes
nothing; and every written file ends with a newline, so an appended body
is preceded by a blank line. -/
theorem c7_journal_write_entry :
    (∀ (existing : Option String) (content : String) (sessionKeys tags : List String)
        (date : String), pyStrip content = "" →
        writeEntry existing content sessionKeys tags date =
          .error (.valueError "Journal content cannot be empty")) ∧
    (∀ (content : String) (sessionKeys tags : List String) (date : String), pyStrip content ≠ "" →
        writeEntry none content sessionKeys tags date =
          .ok (buildFrontmatter date sessionKeys tags ++ "\n\n" ++ pyStrip content ++ "\n")) ∧
    (∀ (old content : String) (sessionKeys tags : List String) (date : String),
        pyStrip content ≠ "" →
        writeEntry (some old) content sessionKeys tags date =
          .ok (old ++ "\n" ++ pyStrip content ++ "\n")) ∧
    (∀ (existing : Option String) (content : String) (sessionKeys tags : List String)
        (date : String) (out : String),
        writeEntry existing content sessionKeys tags date = .ok out → ∃ u, out = u ++ "\n") := by
  refine ⟨?_, ?_, ?_, ?_⟩
  · intro existing content sessionKeys tags date h
    simp [writeEntry, h]
  · intro content sessionKeys tags date h
    simp [writeEntry, h]
  · intro old content sessionKeys tags date h
    simp [writeEntry, h]
  · intro existing content sessionKeys tags date out h
    unfold writeEntry at h
    by_cases hc : pyStrip content = ""
    · simp [hc] at h
    · cases existing with
      | none =>
        simp [hc] at h
        exact ⟨buildFrontmatter date sessionKeys tags ++ "\n\n" ++ pyStrip content, by rw [← h]⟩
      | some old =>
        simp [hc] at h
        exact ⟨old ++ "\n" ++ pyStrip content, by rw [← h]⟩

/-- Witness for C7: a concrete append to an existing day file and a
concrete rejection of whitespace-only content. -/
theorem c7_journal_write_entry_witness :
    writeEntry (some "day") "more" [] [] "2026-10-12" = .ok "day\nmore\n" ∧
    writeEntry none " " [] [] "2026-10-12" =
      .error (.valueError "Journal content cannot be empty") := by
  constructor
  · have h := c7_journal_write_entry.2.2.1 "day" "more" [] [] "2026-10-12" (by decide)
    rw [h]
    rfl
  · exact c7_journal_write_entry.1 none " " [] [] "2026-10-12" (by decide)

/-- C8 (amended): the promoter resolves the section header to the
LLM-supplied `section` value whenever the edit object carries one — even
when the target file has a canonical section — and uses the canonical
section (or `""`) only when the `section` key is absent. -/
theorem c8_section_resolution :
    (∀ (ed : EditData) (sec : String), ed.sectionField = some sec →
        (mkProposal ed).sectionHeader = sec) ∧
    (∀ ed : EditData, ed.sectionField = none →
        (mkProposal ed).sectionHeader = dictGetD BOOTSTRAP_SECTIONS ed.targetFile "") := by
  constructor
  · intro ed sec h
    simp [mkProposal, h]
  · intro ed h
    simp [mkProposal, h]

/-- Witness for C8: an edit without a `section` key targeting `SOUL.md`
resolves to that file's canonical section. -/
theorem c8_section_resolution_witness :
    (mkProposal { targetFile := "SOUL.md", sectionField := none, content := "x",
                  reason := "r", reflectionType := "insight" }).sectionHeader =
      dictGetD BOOTSTRAP_SECTIONS "SOUL.md" "" := by
  exact c8_section_resolution.2
    { targetFile := "SOUL.md", sectionField := none, content := "x",
      reason := "r", reflectionType := "insight" } rfl

/-- Counterexample for C8 as stated: for `AGENTS.md`, which has a
canonical section, a supplied `section` value wins over the canonical
one, contradicting "if `target_file` has a canonical section, that
canonical section is used". -/
theorem c8_counterexample :
    (mkProposal { targetFile := "AGENTS.md", sectionField := some "## Custom", content := "x",
                  reason := "r", reflectionType := "mistake" }).sectionHeader = "## Custom" ∧
    dictGetD BOOTSTRAP_SECTIONS "AGENTS.md" "" = "## Self-Improvements from Reflection" ∧
    "## Custom" ≠ "## Self-Improvements from Reflection" := by
  refine ⟨rfl, rfl, by decide⟩

/-- C2: Every typed memory write that succeeds gives the created item
the id `sha256(title + ":" + content).hexdigest()[:8]` — the first 8 hex
characters of the SHA-256 digest of title, colon, content (the content
as passed, before stripping). -/
theorem c2_id_first8_sha256 :
    (∀ (s : Store) (now : Nat) (fname title content : String) (tags : Option (List String))
        (confidence : Option ℚ) (source : Option String), pyStrip content ≠ "" →
        (writeFact s now fname title content tags confidence source).map (fun r => r.2.id) =
          .ok ((sha256HexOfString (title ++ ":" ++ content)).take 8)) ∧
    (∀ (s : Store) (now : Nat) (fname title content : String) (tags : Option (List String))
        (status : String) (supersedes rationale scope : Option String), pyStrip content ≠ "" →
        status = "active" ∨ status = "superseded" →
        (writeDecision s now fname title content tags status supersedes rationale scope).map
          (fun r => r.2.id) = .ok ((sha256HexOfString (title ++ ":" ++ content)).take 8)) ∧
    (∀ (s : Store) (now : Nat) (fname title content : String) (tags : Option (List String))
        (status : String) (priority horizon : Option String), pyStrip content ≠ "" →
        status = "active" ∨ status = "achieved" ∨ status = "abandoned" →
        (writeGoal s now fname title content tags status priority horizon).map
          (fun r => r.2.id) = .ok ((sha256HexOfString (title ++ ":" ++ content)).take 8)) ∧
    (∀ (s : Store) (now : Nat) (fname title content assignee : String)
        (tags : Option (List String)) (st : TaskStatus) (deadline priority relatedGoal :
        Option String), pyStrip content ≠ "" → pyStrip assignee ≠ "" →
        (writeTask s now fname title content assignee tags (.enum st) deadline priority
          relatedGoal).map (fun r => r.2.id) =
          .ok ((sha256HexOfString (title ++ ":" ++ content)).take 8)) ∧
    (∀ (s : Store) (now : Nat) (fname title content : String) (tags : Option (List String))
        (context : Option String), pyStrip content ≠ "" →
        (writeReflection s now fname title content tags context).map (fun r => r.2.id) =
          .ok ((sha256HexOfString (title ++ ":" ++ content)).take 8)) := by
  refine ⟨?_, ?_, ?_, ?_, ?_⟩
  · intro s now fname title content tags confidence source h
    simp [writeFact, generateId, Except.map, h]
  · intro s now fname title content tags status supersedes rationale scope h hs
    rcases hs with hs | hs <;> simp [writeDecision, generateId, Except.map, h, hs]
  · intro s now fname title content tags status priority horizon h hs
    rcases hs with hs | hs | hs <;> simp [writeGoal, generateId, Except.map, h, hs]
  · intro s now fname title content assignee tags st deadline priority relatedGoal h ha
    simp [writeTask, generateId, Except.map, h, ha, StatusVal.valueAttr]
  · intro s now fname title content tags context h
    simp [writeReflection, generateId, Except.map, h]

set_option maxRecDepth 100000 in
/-- Witness for C2: a concrete fact write produces the first 8 hex
characters of `sha256("a:b")`, which evaluate to `"6783a31e"`. -/
theorem c2_id_first8_sha256_witness :
    (writeFact store0 0 "f.md" "a" "b" none none none).map (fun r => r.2.id) =
      .ok ((sha256HexOfString ("a" ++ ":" ++ "b")).take 8) ∧
    (sha256HexOfString ("a" ++ ":" ++ "b")).take 8 = "6783a31e" := by
  exact ⟨c2_id_first8_sha256.1 store0 0 "f.md" "a" "b" none none none (by decide), by rfl⟩

/-- C5 (amended): `write_decision` raises a `ValueError` (creating no
file) on empty or whitespace-only content and on a status outside
`{active, superseded}`; but it does not require `rationale` when
`supersedes` is set — such a write succeeds. The supersedes-requires-
rationale rule is enforced only in `AtomicCandidate.validate` on the
distillation path, not in the store. -/
theorem c5_write_decision_validation :
    (∀ (s : Store) (now : Nat) (fname title content : String) (tags : Option (List String))
        (status : String) (supersedes rationale scope : Option String), pyStrip content = "" →
        writeDecision s now fname title content tags status supersedes rationale scope =
          .error (.valueError "Decision content cannot be empty")) ∧
    (∀ (s : Store) (now : Nat) (fname title content : String) (tags : Option (List String))
        (status : String) (supersedes rationale scope : Option String), pyStrip content ≠ "" →
        status ≠ "active" → status ≠ "superseded" →
        writeDecision s now fname title content tags status supersedes rationale scope =
          .error (.valueError "Decision status must be 'active' or 'superseded'")) ∧
    (∀ (s : Store) (now : Nat) (fname title content : String) (tags : Option (List String))
        (status : String) (supersedes rationale scope : Option String), pyStrip content ≠ "" →
        status = "active" ∨ status = "superseded" →
        exceptOk (writeDecision s now fname title content tags status supersedes rationale
          scope) = true) := by
  refine ⟨?_, ?_, ?_⟩
  · intro s now fname title content tags status supersedes rationale scope h
    simp [writeDecision, h]
  · intro s now fname title content tags status supersedes rationale scope h h1 h2
    simp [writeDecision, h, h1, h2]
  · intro s now fname title content tags status supersedes rationale scope h hs
    rcases hs with hs | hs <;> simp [writeDecision, exceptOk, h, hs]

set_option maxRecDepth 100000 in
/-- Witness for C5: whitespace-only content is rejected with the exact
error, and an `active` decision with `supersedes` set and no rationale
is accepted. -/
theorem c5_write_decision_validation_witness :
    writeDecision store0 0 "f.md" "t" " " none "active" none none none =
      .error (.valueError "Decision content cannot be empty") ∧
    exceptOk (writeDecision store0 0 "f.md" "t" "c" none "active" (some "abc") none none) =
      true := by
  exact ⟨c5_write_decision_validation.1 store0 0 "f.md" "t" " " none "active" none none none
      (by decide),
    c5_write_decision_validation.2.2 store0 0 "f.md" "t" "c" none "active" (some "abc") none none
      (by decide) (Or.inl rfl)⟩

set_option maxRecDepth 100000 in
/-- Counterexample for C5 as stated: `write_decision` with `supersedes`
set and no `rationale` does not raise — it succeeds. -/
theorem c5_counterexample :
    writeDecision store0 0 "f.md" "t" "c" none "active" (some "abc") none none =
      .ok ({ store0 with decisions := [("f.md",
        { id := (sha256HexOfString "t:c").take 8, category := .decisions, title := "t",
          content := "c", createdAt := 0, updatedAt := 0, tags := [],
          status := some "active", supersedes := some "abc" })] },
        { id := (sha256HexOfString "t:c").take 8, category := .decisions, title := "t",
          content := "c", createdAt := 0, updatedAt := 0, tags := [],
          status := some "active", supersedes := some "abc" }) := by
  rfl

/-- C9 (amended): every typed memory write rejects empty or
whitespace-only content by raising a `ValueError` and creating no file;
but the title is not validated — a write with an empty title and
non-empty content succeeds. -/
theorem c9_typed_write_validation :
    (∀ (s : Store) (now : Nat) (fname title content : String) (tags : Option (List String))
        (confidence : Option ℚ) (source : Option String), pyStrip content = "" →
        writeFact s now fname title content tags confidence source =
          .error (.valueError "Fact content cannot be empty")) ∧
    (∀ (s : Store) (now : Nat) (fname title content : String) (tags : Option (List String))
        (status : String) (supersedes rationale scope : Option String), pyStrip content = "" →
        writeDecision s now fname title content tags status supersedes rationale scope =
          .error (.valueError "Decision content cannot be empty")) ∧
    (∀ (s : Store) (now : Nat) (fname title content : String) (tags : Option (List String))
        (status : String) (priority horizon : Option String), pyStrip content = "" →
        writeGoal s now fname title content tags status priority horizon =
          .error (.valueError "Goal content cannot be empty")) ∧
    (∀ (s : Store) (now : Nat) (fname title content assignee : String)
        (tags : Option (List String)) (status : StatusVal)
        (deadline priority relatedGoal : Option String), pyStrip content = "" →
        writeTask s now fname title content assignee tags status deadline priority relatedGoal =
          .error (.valueError "Task content cannot be empty")) ∧
    (∀ (s : Store) (now : Nat) (fname title content : String) (tags : Option (List String))
        (context : Option String), pyStrip content = "" →
        writeReflection s now fname title content tags context =
          .error (.valueError "Reflection content cannot be empty")) ∧
    (∀ (s : Store) (now : Nat) (fname content : String) (tags : Option (List String))
        (confidence : Option ℚ) (source : Option String), pyStrip content ≠ "" →
        exceptOk (writeFact s now fname "" content tags confidence source) = true) := by
  refine ⟨?_, ?_, ?_, ?_, ?_, ?_⟩
  · intro s now fname title content tags confidence source h
    simp [writeFact, h]
  · intro s now fname title content tags status supersedes rationale scope h
    simp [writeDecision, h]
  · intro s now fname title content tags status priority horizon h
    simp [writeGoal, h]
  · intro s now fname title content assignee tags status deadline priority relatedGoal h
    simp [writeTask, h]
  · intro s now fname title content tags context h
    simp [writeReflection, h]
  · intro s now fname content tags confidence source h
    simp [writeFact, exceptOk, h]

set_option maxRecDepth 100000 in
/-- Witness for C9: whitespace-only content is rejected by
`write_reflection`, and an empty title with non-empty content is
accepted by `write_fact`. -/
theorem c9_typed_write_validation_witness :
    writeReflection store0 0 "f.md" "t" "  " none none =
      .error (.valueError "Reflection content cannot be empty") ∧
    exceptOk (writeFact store0 0 "f.md" "" "x" none none none) = true := by
  exact ⟨c9_typed_write_validation.2.2.2.2.1 store0 0 "f.md" "t" "  " none none (by decide),
    c9_typed_write_validation.2.2.2.2.2 store0 0 "f.md" "x" none none none (by decide)⟩

set_option maxRecDepth 100000 in
/-- Counterexample for C9 as stated: a typed write with an empty
(whitespace-only is the same) title and non-empty content does not raise
— `write_fact` succeeds, because no write function validates the title. -/
theorem c9_counterexample :
    exceptOk (writeFact store0 0 "f.md" "" "x" none none none) = true ∧
    exceptOk (writeReflection store0 0 "r.md" " " "x" none none) = true := by
  exact ⟨by rfl, by rfl⟩

/-- C3 (amended): a distilled task candidate whose assignee is missing
or empty fails `AtomicCandidate.validate` with "Task assignee is
required" and is skipped by the distillation commit gate, leaving the
store unchanged; moreover `to_memory_params` substitutes `"unassigned"`
(never `"distilled"`) for a missing assignee, and the assignee parameter
it produces is never falsy, so the `"distilled"` fallback in
`AgentLoop._commit_candidate_to_memory` is unreachable. -/
theorem c3_distilled_task_assignee :
    (∀ (s : Store) (now : Nat) (fname : String) (c : AtomicCandidate), c.type = .TASK →
        c.taskAssignee = none ∨ c.taskAssignee = some "" →
        "Task assignee is required" ∈ c.validate ∧
        processTaskCandidate s now fname c = (s, false) ∧
        c.toTaskParams.assignee = "unassigned") ∧
    (∀ c : AtomicCandidate, c.toTaskParams.assignee ≠ "") := by
  constructor
  · intro s now fname c ht ha
    have hblank : optBlank c.taskAssignee = true := by
      rcases ha with ha | ha <;> simp [optBlank, ha, pyStrip]
    have hmem : "Task assignee is required" ∈ c.validate := by
      unfold AtomicCandidate.validate
      have : (if c.type = .TASK ∧ optBlank c.taskAssignee then
          ["Task assignee is required"] else []) = ["Task assignee is required"] := by
        simp [ht, hblank]
      simp only [List.mem_append, this]
      simp
    refine ⟨hmem, ?_, ?_⟩
    · have hne : c.validate ≠ [] := by
        intro hnil
        rw [hnil] at hmem
        exact (List.not_mem_nil _) hmem
      simp [processTaskCandidate, hne]
    · rcases ha with ha | ha <;> simp [AtomicCandidate.toTaskParams, pyOrStr, ha]
  · intro c
    unfold AtomicCandidate.toTaskParams pyOrStr
    cases h : c.taskAssignee with
    | none => simp
    | some a =>
      by_cases ha : a = "" <;> simp [ha]

/-- Witness for C3: a concrete task candidate with no assignee is
validated as missing its assignee, skipped by the commit gate, and would
carry assignee `"unassigned"`, not `"distilled"`. -/
theorem c3_distilled_task_assignee_witness :
    "Task assignee is required" ∈
      ({ type := .TASK, title := "t", content := "c" } : AtomicCandidate).validate ∧
    processTaskCandidate store0 0 "f.md" { type := .TASK, title := "t", content := "c" } =
      (store0, false) ∧
    ({ type := .TASK, title := "t", content := "c" } : AtomicCandidate).toTaskParams.assignee =
      "unassigned" := by
  exact c3_distilled_task_assignee.1 store0 0 "f.md"
    { type := .TASK, title := "t", content := "c" } rfl (Or.inl rfl)

/-- Counterexample for C3 as stated: for the task candidate with missing
assignee, the commit path does not substitute `"distilled"` and commits
nothing — validation rejects it (the candidate is skipped), and the
parameter conversion yields `"unassigned"`. -/
theorem c3_counterexample :
    ({ type := .TASK, title := "t", content := "c" } : AtomicCandidate).validate =
      ["Task assignee is required"] ∧
    processTaskCandidate store0 0 "f.md" { type := .TASK, title := "t", content := "c" } =
      (store0, false) ∧
    ({ type := .TASK, title := "t", content := "c" } : AtomicCandidate).toTaskParams.assignee ≠
      "distilled" := by
  refine ⟨by decide, by decide, by decide⟩

/-! ### C1: reflections are append-only -/

/-- A write whose generated filename is unused appends one file at the
end of the directory. -/
lemma writeFile_fresh (dir : List (String × MemoryItem)) (item : MemoryItem) (fname : String)
    (h : lookupFile dir fname = none) :
    writeFile dir item fname = dir ++ [(fname, item)] := by
  unfold writeFile
  rw [writeFileAux]
  simp [candidateName, h]

/-- `update_memory` on the reflections category never changes the store:
it returns `None` before touching anything when the id is not found, and
raises before touching anything when it is. -/
lemma updateMemory_reflections_fst (s : Store) (now : Nat) (id : String) (u : UpdateArgs) :
    (updateMemory s now .reflections id u).1 = s := by
  unfold updateMemory
  simp only [Store.dir]
  cases h : readById s.reflections id with
  | none => rfl
  | some e =>
    obtain ⟨p, it⟩ := e
    rfl

/-- When the id exists, `update_memory` on reflections raises the
append-only `ValueError`. -/
lemma updateMemory_reflections_found (s : Store) (now : Nat) (id : String) (u : UpdateArgs)
    (p : String) (it : MemoryItem) (h : readById s.reflections id = some (p, it)) :
    (updateMemory s now .reflections id u).2 =
      .error (.valueError "Reflections are append-only and cannot be updated") := by
  unfold updateMemory
  simp only [Store.dir]
  rw [h]
  simp

/-- `delete_memory` on the reflections category never changes the store. -/
lemma deleteMemory_reflections_fst (s : Store) (id : String) :
    (deleteMemory s .reflections id).1 = s := by
  unfold deleteMemory
  simp only [Store.dir]
  cases h : readById s.reflections id with
  | none => rfl
  | some e =>
    obtain ⟨p, it⟩ := e
    rfl

/-- When the id exists, `delete_memory` on reflections raises the
append-only `ValueError`. -/
lemma deleteMemory_reflections_found (s : Store) (id : String)
    (p : String) (it : MemoryItem) (h : readById s.reflections id = some (p, it)) :
    (deleteMemory s .reflections id).2 =
      .error (.valueError "Reflections are append-only and cannot be deleted") := by
  unfold deleteMemory
  simp only [Store.dir]
  rw [h]
  simp

/-- One reflections-category operation with a fresh write filename only
ever appends to the reflections directory. -/
lemma reflStep_reflections_append (s : Store) (op : ReflOp)
    (h : freshCond s op = true) :
    ∃ pre, (reflStep s op).1.reflections = s.reflections ++ pre := by
  cases op with
  | write now fname t c tg ctx =>
    simp only [freshCond, Option.isNone_iff_eq_none] at h
    cases hw : writeReflection s now fname t c tg ctx with
    | error e =>
      refine ⟨[], ?_⟩
      simp [reflStep, hw]
    | ok r =>
      obtain ⟨s', it⟩ := r
      have hshape : s' = { s with reflections := writeFile s.reflections it fname } := by
        unfold writeReflection at hw
        by_cases hc : pyStrip c = ""
        · simp [hc] at hw
        · simp [hc] at hw
          obtain ⟨hw1, hw2⟩ := hw
          rw [← hw1, ← hw2]
      refine ⟨[(fname, it)], ?_⟩
      have : (reflStep s (.write now fname t c tg ctx)).1 = s' := by
        simp [reflStep, hw]
      rw [this, hshape]
      exact writeFile_fresh s.reflections it fname h
  | update now id u =>
    refine ⟨[], ?_⟩
    have hfst : (reflStep s (.update now id u)).1 = s := by
      unfold reflStep
      rcases hu : updateMemory s now .reflections id u with ⟨s', r⟩
      have hs' : s' = s := by
        have h0 := updateMemory_reflections_fst s now id u
        rw [hu] at h0
        exact h0
      cases r with
      | ok o => cases o <;> simp [hu, hs']
      | error e => simp [hu, hs']
    rw [hfst, List.append_nil]
  | delete id =>
    refine ⟨[], ?_⟩
    have hfst : (reflStep s (.delete id)).1 = s := by
      unfold reflStep
      rcases hd : deleteMemory s .reflections id with ⟨s', r⟩
      have hs' : s' = s := by
        have h0 := deleteMemory_reflections_fst s id
        rw [hd] at h0
        exact h0
      cases r with
      | ok b => simp [hd, hs']
      | error e => simp [hd, hs']
    rw [hfst, List.append_nil]

/-- Over any fresh-named run, the reflections directory only grows by
appending. -/
lemma reflRun_append (ops : List ReflOp) : ∀ s : Store, freshRun s ops = true →
    ∃ suffix, (reflRun s ops).reflections = s.reflections ++ suffix := by
  induction ops with
  | nil =>
    intro s _
    exact ⟨[], by simp [reflRun]⟩
  | cons op ops ih =>
    intro s hf
    rw [freshRun, Bool.and_eq_true] at hf
    obtain ⟨h1, h2⟩ := hf
    obtain ⟨pre, hpre⟩ := reflStep_reflections_append s op h1
    obtain ⟨suf, hsuf⟩ := ih (reflStep s op).1 h2
    refine ⟨pre ++ suf, ?_⟩
    rw [reflRun, hsuf, hpre, List.append_assoc]

/-- C1 (amended): over any sequence of reflections-category operations
whose generated write filenames are fresh (the regime `os.urandom`
provides), the list of reflection files only grows by appending — no
existing file changes or disappears. `update_memory` and `delete_memory`
on reflections never modify the store; they raise the append-only
`ValueError` when the target id exists, but when it does not they return
`None` / `False` without raising (the source returns before the rule
check), so "always raise an error" does not hold. -/
theorem c1_reflections_append_only :
    (∀ (s : Store) (ops : List ReflOp), freshRun s ops = true →
        ∃ suffix, (reflRun s ops).reflections = s.reflections ++ suffix) ∧
    (∀ (s : Store) (now : Nat) (id : String) (u : UpdateArgs),
        (updateMemory s now .reflections id u).1 = s) ∧
    (∀ (s : Store) (now : Nat) (id : String) (u : UpdateArgs),
        (readById s.reflections id).isSome = true →
        (updateMemory s now .reflections id u).2 =
          .error (.valueError "Reflections are append-only and cannot be updated")) ∧
    (∀ (s : Store) (id : String), (deleteMemory s .reflections id).1 = s) ∧
    (∀ (s : Store) (id : String), (readById s.reflections id).isSome = true →
        (deleteMemory s .reflections id).2 =
          .error (.valueError "Reflections are append-only and cannot be deleted")) := by
  refine ⟨fun s ops => reflRun_append ops s, updateMemory_reflections_fst, ?_,
    deleteMemory_reflections_fst, ?_⟩
  · intro s now id u h
    obtain ⟨e, hp⟩ := Option.isSome_iff_exists.mp h
    obtain ⟨p, it⟩ := e
    exact updateMemory_reflections_found s now id u p it hp
  · intro s id h
    obtain ⟨e, hp⟩ := Option.isSome_iff_exists.mp h
    obtain ⟨p, it⟩ := e
    exact deleteMemory_reflections_found s id p it hp

/-- A store holding one reflection file, for the C1 witness. -/
def reflWitnessStore : Store :=
  { reflections := [("r0.md",
      { id := "abc12345", category := .reflections, title := "t0", content := "c0",
        createdAt := 0, updatedAt := 0, tags := [] })] }

/-- A concrete run for the C1 witness: one fresh write, then an update
attempt and a delete attempt on the existing reflection. -/
def reflWitnessOps : List ReflOp :=
  [.write 1 "r1.md" "t1" "c1" none none, .update 2 "abc12345" {}, .delete "abc12345"]

set_option maxRecDepth 200000 in
/-- Witness for C1: on the one-reflection store, the concrete run only
appends, and both the update and the delete of the existing reflection
raise the append-only errors. -/
theorem c1_reflections_append_only_witness :
    (∃ suffix, (reflRun reflWitnessStore reflWitnessOps).reflections =
        reflWitnessStore.reflections ++ suffix) ∧
    (updateMemory reflWitnessStore 2 .reflections "abc12345" {}).2 =
      .error (.valueError "Reflections are append-only and cannot be updated") ∧
    (deleteMemory reflWitnessStore .reflections "abc12345").2 =
      .error (.valueError "Reflections are append-only and cannot be deleted") := by
  refine ⟨c1_reflections_append_only.1 reflWitnessStore reflWitnessOps (by decide),
    c1_reflections_append_only.2.2.1 reflWitnessStore 2 "abc12345" {} (by decide),
    c1_reflections_append_only.2.2.2.2 reflWitnessStore "abc12345" (by decide)⟩

/-- Counterexample for C1 as stated: on an empty store, `update_memory`
and `delete_memory` on the reflections category do not raise — they
return `None` and `False` (the not-found path precedes the rule check). -/
theorem c1_counterexample :
    updateMemory store0 0 .reflections "deadbeef" {} = (store0, .ok none) ∧
    deleteMemory store0 .reflections "deadbeef" = (store0, .ok false) := by
  exact ⟨rfl, rfl⟩

end Hermitcrab
